import Mathlib

/-!
Shallow embedding of the Tree Cost Calculator (src/src/App.tsx).

Numbers are modelled as rationals (`ℚ`): the source computes with JS
numbers and performs no intermediate rounding, and every claim below is
either exact arithmetic or a 2-decimal display rounding far from any
rounding boundary, so exact rational arithmetic is a faithful model.

Form inputs (`circumference`, `height` text fields) are modelled as the
parsed numeric value `Number(s)`; the empty field parses to 0, which the
positivity guard in `currentVolume` excludes, mirroring the source.
-/

namespace TCC

/-- `TreeItem` from App.tsx lines 55-60. -/
structure TreeItem where
  id : String
  circumference : ℚ
  height : ℚ
  notes : String
deriving DecidableEq, Repr

/-- `Quote` from App.tsx lines 62-71. -/
structure Quote where
  id : String
  date : String
  subtotal : ℚ
  taxAmount : ℚ
  discountAmount : ℚ
  total : ℚ
  trees : List TreeItem
  customerName : Option String
deriving DecidableEq, Repr

/-- The six persisted settings read by `CalculatorView` (App.tsx lines 127-132). -/
structure PricingConfig where
  startingFee : ℚ
  pricePerCubicFoot : ℚ
  taxRate : ℚ
  showTax : Bool
  showDiscount : Bool
  defaultDiscountPercent : ℚ
deriving DecidableEq, Repr

/-- `currentVolume` (App.tsx lines 144-146): the guarded per-tree volume
`(Number(c) > 0 && Number(h) > 0) ? c*c*h/12.56 : 0`. -/
def treeVolume (c h : ℚ) : ℚ :=
  if 0 < c ∧ 0 < h then c * c * h / 12.56 else 0

/-- The unguarded per-item volume used inside the `trees.reduce` of
`totalVolume` (App.tsx lines 148-150): `c*c*h/12.56` with no positivity check. -/
def itemVolume (t : TreeItem) : ℚ :=
  t.circumference * t.circumference * t.height / 12.56

/-- The `PriceBreakdown` computed by App.tsx lines 148-156. -/
structure Breakdown where
  subtotal : ℚ
  discountAmount : ℚ
  taxableAmount : ℚ
  taxAmount : ℚ
  total : ℚ
deriving DecidableEq, Repr

/-- The pricing engine over a list of trees (App.tsx lines 148-156 with no
pending current tree): `totalVolume` is a left fold of the unguarded item
volumes, then the subtotal/discount/tax/total formulas. -/
def computeBreakdown (trees : List TreeItem) (cfg : PricingConfig)
    (discountPercent : ℚ) : Breakdown :=
  let totalVolume := trees.foldl (fun acc t => acc + itemVolume t) 0
  let subtotal := totalVolume * cfg.pricePerCubicFoot + cfg.startingFee
  let discountAmount := if cfg.showDiscount then subtotal * (discountPercent / 100) else 0
  let taxableAmount := subtotal - discountAmount
  let taxAmount := if cfg.showTax then taxableAmount * (cfg.taxRate / 100) else 0
  { subtotal := subtotal
    discountAmount := discountAmount
    taxableAmount := taxableAmount
    taxAmount := taxAmount
    total := taxableAmount + taxAmount }

/-- The mutable state of `CalculatorView` relevant to saving: the two pending
measurement inputs, the composed tree list and the persisted history. -/
structure CalcState where
  circumference : ℚ
  height : ℚ
  trees : List TreeItem
  history : List Quote
deriving DecidableEq, Repr

/-- `currentVolume` of the pending inputs in a given state. -/
def currentVolume (st : CalcState) : ℚ :=
  treeVolume st.circumference st.height

/-- `totalVolume` (App.tsx lines 148-150): fold over the composed trees plus
the pending current volume. -/
def liveVolume (st : CalcState) : ℚ :=
  st.trees.foldl (fun acc t => acc + itemVolume t) 0 + currentVolume st

/-- The tree list placed into the quote by `saveQuote` (App.tsx lines 182-187):
the composed list if non-empty, else a single item built from the pending
inputs when `currentVolume > 0`, else empty.  `newTreeId` stands for the
`crypto.randomUUID()` call. -/
def composedTrees (newTreeId : String) (st : CalcState) : List TreeItem :=
  if st.trees.length > 0 then st.trees
  else if 0 < currentVolume st then
    [{ id := newTreeId, circumference := st.circumference, height := st.height, notes := "" }]
  else []

/-- `saveQuote` (App.tsx lines 174-197).  `newQuoteId`, `newTreeId` and `date`
stand for the two `crypto.randomUUID()` calls and `new Date().toISOString()`.
Returns the created quote (or `none` when rejected) and the new state; when
rejected the state is returned unchanged. -/
def saveQuote (cfg : PricingConfig) (discountPercent : ℚ)
    (newQuoteId newTreeId date : String) (st : CalcState) : Option Quote × CalcState :=
  let subtotal := liveVolume st * cfg.pricePerCubicFoot + cfg.startingFee
  let discountAmount := if cfg.showDiscount then subtotal * (discountPercent / 100) else 0
  let taxableAmount := subtotal - discountAmount
  let taxAmount := if cfg.showTax then taxableAmount * (cfg.taxRate / 100) else 0
  let total := taxableAmount + taxAmount
  let quote : Quote :=
    { id := newQuoteId
      date := date
      subtotal := subtotal
      taxAmount := taxAmount
      discountAmount := discountAmount
      total := total
      trees := composedTrees newTreeId st
      customerName := none }
  if quote.trees.length = 0 then (none, st)
  else (some quote,
    { circumference := 0, height := 0, trees := [], history := quote :: st.history })

/-- `deleteQuote` (App.tsx lines 413-417), after the external confirmation
gate: keep every quote whose id differs. -/
def deleteQuote (id : String) (history : List Quote) : List Quote :=
  history.filter (fun q => q.id ≠ id)

/-- A parsed JSON value, enough to distinguish the types the settings use. -/
inductive JVal where
  | num : ℚ → JVal
  | bool : Bool → JVal
  | str : String → JVal
  | null : JVal
deriving DecidableEq, Repr

/-- What the durable key-value slot holds, as seen through
`useLocalStorage`'s try/JSON.parse (App.tsx lines 26-37): the key can be
absent, present but unparsable (JSON.parse throws), or present with a parsed
JSON value. -/
inductive StoredItem where
  | absent : StoredItem
  | corrupt : StoredItem
  | val : JVal → StoredItem
deriving DecidableEq, Repr

/-- The read path of `useLocalStorage` (App.tsx lines 30-36):
`item ? JSON.parse(item) : initialValue`, with a catch returning
`initialValue`.  A parsed value is returned as-is, with no type check. -/
def loadSlot : StoredItem → JVal → JVal
  | .absent, d => d
  | .corrupt, d => d
  | .val v, _ => v

/-- The six persisted configuration slots. -/
structure Store where
  startingFee : StoredItem
  pricePerCubicFoot : StoredItem
  taxRate : StoredItem
  showTaxCalculator : StoredItem
  showDiscount : StoredItem
  defaultDiscountPercent : StoredItem
deriving DecidableEq, Repr

/-- The raw values `CalculatorView` reads on mount (App.tsx lines 127-132),
each through `useLocalStorage` with its documented default. -/
structure RawConfig where
  startingFee : JVal
  pricePerCubicFoot : JVal
  taxRate : JVal
  showTax : JVal
  showDiscount : JVal
  defaultDiscountPercent : JVal
deriving DecidableEq, Repr

/-- Loading all six settings slots with the defaults hard-coded at the
`useLocalStorage` call sites (App.tsx lines 127-132). -/
def loadConfig (s : Store) : RawConfig :=
  { startingFee := loadSlot s.startingFee (.num 0)
    pricePerCubicFoot := loadSlot s.pricePerCubicFoot (.num 10)
    taxRate := loadSlot s.taxRate (.num 0)
    showTax := loadSlot s.showTaxCalculator (.bool false)
    showDiscount := loadSlot s.showDiscount (.bool false)
    defaultDiscountPercent := loadSlot s.defaultDiscountPercent (.num 0) }

/-- A store with no prior state in any slot. -/
def emptyStore : Store :=
  { startingFee := .absent
    pricePerCubicFoot := .absent
    taxRate := .absent
    showTaxCalculator := .absent
    showDiscount := .absent
    defaultDiscountPercent := .absent }

/-- Display rounding to two decimals, as `toFixed(2)` performs at the output
boundary (round half away from zero; every value we round is positive and far
from a tie, where this agrees with JS). -/
def round2 (q : ℚ) : ℚ :=
  ((⌊q * 100 + 1 / 2⌋ : ℤ) : ℚ) / 100

/-- A store in which every slot holds an unparsable string. -/
def corruptStore : Store :=
  { startingFee := .corrupt
    pricePerCubicFoot := .corrupt
    taxRate := .corrupt
    showTaxCalculator := .corrupt
    showDiscount := .corrupt
    defaultDiscountPercent := .corrupt }

/-- The documented default configuration values, as raw JSON values. -/
def defaultRawConfig : RawConfig :=
  { startingFee := .num 0
    pricePerCubicFoot := .num 10
    taxRate := .num 0
    showTax := .bool false
    showDiscount := .bool false
    defaultDiscountPercent := .num 0 }

/-! ## Helper lemmas -/

/-- The `reduce` in `totalVolume` is a left fold of additions: it equals its
seed plus the sum of the item volumes. -/
theorem foldl_add_eq (l : List TreeItem) (a : ℚ) :
    l.foldl (fun acc t => acc + itemVolume t) a = a + (l.map itemVolume).sum := by
  induction l generalizing a with
  | nil => simp
  | cons t ts ih => simp [ih]; ring

/-! ## Claims -/

/-- Claim C2: the tree-volume function returns `c² · h / 12.56` when both
`c > 0` and `h > 0`, and returns `0` when `c ≤ 0` or `h ≤ 0`. -/
theorem treeVolume_cases (c h : ℚ) :
    (0 < c → 0 < h → treeVolume c h = c ^ 2 * h / 12.56) ∧
    (c ≤ 0 ∨ h ≤ 0 → treeVolume c h = 0) := by
  constructor
  · intro hc hh
    rw [treeVolume, if_pos ⟨hc, hh⟩]
    ring
  · intro hch
    have hne : ¬(0 < c ∧ 0 < h) := by
      rcases hch with hc | hh
      · exact fun hand => absurd hand.1 (not_lt.mpr hc)
      · exact fun hand => absurd hand.2 (not_lt.mpr hh)
    rw [treeVolume, if_neg hne]

/-- Witness for C2 at `(2, 3)` and `(-1, 5)`. -/
theorem treeVolume_cases_witness :
    treeVolume 2 3 = 2 ^ 2 * 3 / 12.56 ∧ treeVolume (-1) 5 = 0 :=
  ⟨(treeVolume_cases 2 3).1 (by norm_num) (by norm_num),
   (treeVolume_cases (-1) 5).2 (Or.inl (by norm_num))⟩

/-- Claim C3: for every list of (valid, positively-measured) trees, config and
effective discount percent, `subtotal` is the sum of `treeVolume` over the
trees times `pricePerCubicFoot` plus `startingFee`; `taxableAmount` is
`subtotal - discountAmount`; `total` is `subtotal - discountAmount +
taxAmount`, all exact; and the empty tree list yields `subtotal =
startingFee`. -/
theorem breakdown_formulas (trees : List TreeItem) (cfg : PricingConfig) (d : ℚ)
    (hpos : ∀ t ∈ trees, 0 < t.circumference ∧ 0 < t.height) :
    (computeBreakdown trees cfg d).subtotal =
        (trees.map (fun t => treeVolume t.circumference t.height)).sum *
          cfg.pricePerCubicFoot + cfg.startingFee ∧
    (computeBreakdown trees cfg d).taxableAmount =
        (computeBreakdown trees cfg d).subtotal -
          (computeBreakdown trees cfg d).discountAmount ∧
    (computeBreakdown trees cfg d).total =
        (computeBreakdown trees cfg d).subtotal -
          (computeBreakdown trees cfg d).discountAmount +
          (computeBreakdown trees cfg d).taxAmount ∧
    (computeBreakdown ([] : List TreeItem) cfg d).subtotal = cfg.startingFee := by
  refine ⟨?_, ?_, ?_, ?_⟩
  · have hmap : trees.map itemVolume =
        trees.map (fun t => treeVolume t.circumference t.height) :=
      List.map_congr_left (fun t ht => by
        rw [itemVolume, treeVolume, if_pos ⟨(hpos t ht).1, (hpos t ht).2⟩])
    simp [computeBreakdown, foldl_add_eq, hmap]
  · simp [computeBreakdown]
  · simp [computeBreakdown]
  · simp [computeBreakdown]

/-- Witness for C3 on one tree `(2, 3)` with a concrete config. -/
theorem breakdown_formulas_witness :
    (computeBreakdown [⟨"a", 2, 3, ""⟩] ⟨5, 10, 7, true, true, 0⟩ 50).subtotal =
        ([⟨"a", 2, 3, ""⟩].map
          (fun t : TreeItem => treeVolume t.circumference t.height)).sum * 10 + 5 ∧
    (computeBreakdown ([] : List TreeItem) ⟨5, 10, 7, true, true, 0⟩ 50).subtotal = 5 := by
  have h := breakdown_formulas [⟨"a", 2, 3, ""⟩] ⟨5, 10, 7, true, true, 0⟩ 50
    (by intro t ht; rw [List.mem_singleton] at ht; subst ht; exact ⟨by norm_num, by norm_num⟩)
  exact ⟨h.1, h.2.2.2⟩

/-- Claim C4: with `showTax = false` the computed `taxAmount` is exactly `0`
whatever the stored `taxRate`; with `showDiscount = false` the computed
`discountAmount` is exactly `0` whatever the discount percent. -/
theorem toggle_invariant (trees : List TreeItem) (cfg : PricingConfig) (d : ℚ) :
    (cfg.showTax = false → (computeBreakdown trees cfg d).taxAmount = 0) ∧
    (cfg.showDiscount = false → (computeBreakdown trees cfg d).discountAmount = 0) := by
  constructor <;> intro h <;> simp [computeBreakdown, h]

/-- Witness for C4: both toggles off, nonzero rates, one tree. -/
theorem toggle_invariant_witness :
    (computeBreakdown [⟨"a", 2, 3, ""⟩] ⟨5, 10, 7, false, false, 0⟩ 50).taxAmount = 0 ∧
    (computeBreakdown [⟨"a", 2, 3, ""⟩] ⟨5, 10, 7, false, false, 0⟩ 50).discountAmount = 0 :=
  ⟨(toggle_invariant [⟨"a", 2, 3, ""⟩] ⟨5, 10, 7, false, false, 0⟩ 50).1 rfl,
   (toggle_invariant [⟨"a", 2, 3, ""⟩] ⟨5, 10, 7, false, false, 0⟩ 50).2 rfl⟩

/-- Claim C5: invoking save when the assembled quote tree list is empty is
rejected: no quote is produced and the whole state (history included) is
returned unchanged. -/
theorem saveQuote_empty_rejected (cfg : PricingConfig) (d : ℚ)
    (qid tid date : String) (st : CalcState)
    (hempty : composedTrees tid st = []) :
    (saveQuote cfg d qid tid date st).1 = none ∧
    (saveQuote cfg d qid tid date st).2 = st := by
  constructor <;> simp [saveQuote, hempty]

/-- Witness for C5: empty composition, empty pending inputs, one saved quote
already in history. -/
theorem saveQuote_empty_rejected_witness :
    (saveQuote ⟨0, 10, 0, false, false, 0⟩ 0 "q" "t" "d"
        ⟨0, 0, [], [⟨"old", "d0", 1, 0, 0, 1, [⟨"x", 1, 1, ""⟩], none⟩]⟩).1 = none ∧
    (saveQuote ⟨0, 10, 0, false, false, 0⟩ 0 "q" "t" "d"
        ⟨0, 0, [], [⟨"old", "d0", 1, 0, 0, 1, [⟨"x", 1, 1, ""⟩], none⟩]⟩).2 =
      ⟨0, 0, [], [⟨"old", "d0", 1, 0, 0, 1, [⟨"x", 1, 1, ""⟩], none⟩]⟩ :=
  saveQuote_empty_rejected ⟨0, 10, 0, false, false, 0⟩ 0 "q" "t" "d"
    ⟨0, 0, [], [⟨"old", "d0", 1, 0, 0, 1, [⟨"x", 1, 1, ""⟩], none⟩]⟩
    (by simp [composedTrees, currentVolume, treeVolume])

/-- Claim C6: `deleteQuote id` keeps a subsequence of the history (others
unchanged, in order), its members are exactly the quotes whose id differs,
it is a no-op when no quote has the id, and deleting the only quote by its id
empties the history. -/
theorem deleteQuote_spec (id : String) (h : List Quote) :
    List.Sublist (deleteQuote id h) h ∧
    (∀ q : Quote, q ∈ deleteQuote id h ↔ q ∈ h ∧ q.id ≠ id) ∧
    ((∀ q ∈ h, q.id ≠ id) → deleteQuote id h = h) ∧
    (∀ q : Quote, q.id = id → deleteQuote id [q] = []) := by
  refine ⟨List.filter_sublist h, ?_, ?_, ?_⟩
  · intro q
    simp [deleteQuote]
  · intro hall
    rw [deleteQuote, List.filter_eq_self]
    intro q hq
    simpa using hall q hq
  · intro q hq
    simp [deleteQuote, hq]

/-- Witness for C6: deleting an absent id is a no-op, deleting the only
quote's id empties the history. -/
theorem deleteQuote_spec_witness :
    deleteQuote "b" [⟨"a", "d", 1, 0, 0, 1, [⟨"x", 1, 1, ""⟩], none⟩] =
      [⟨"a", "d", 1, 0, 0, 1, [⟨"x", 1, 1, ""⟩], none⟩] ∧
    deleteQuote "a" [⟨"a", "d", 1, 0, 0, 1, [⟨"x", 1, 1, ""⟩], none⟩] = [] :=
  ⟨(deleteQuote_spec "b" [⟨"a", "d", 1, 0, 0, 1, [⟨"x", 1, 1, ""⟩], none⟩]).2.2.1
      (by intro q hq; rw [List.mem_singleton] at hq; subst hq; simp),
   (deleteQuote_spec "a" [⟨"a", "d", 1, 0, 0, 1, [⟨"x", 1, 1, ""⟩], none⟩]).2.2.2
      ⟨"a", "d", 1, 0, 0, 1, [⟨"x", 1, 1, ""⟩], none⟩ rfl⟩

/-- Claim C10: with an empty composed tree list but positive pending inputs,
save does not reject: the created quote's tree list is exactly one item built
from the pending inputs, and that quote is prepended to the history. -/
theorem saveQuote_pending_tree (cfg : PricingConfig) (d : ℚ)
    (qid tid date : String) (c h : ℚ) (hist : List Quote)
    (hc : 0 < c) (hh : 0 < h) :
    (saveQuote cfg d qid tid date ⟨c, h, [], hist⟩).1.map Quote.trees =
      some [⟨tid, c, h, ""⟩] ∧
    (saveQuote cfg d qid tid date ⟨c, h, [], hist⟩).2.history =
      (saveQuote cfg d qid tid date ⟨c, h, [], hist⟩).1.toList ++ hist := by
  have hv : 0 < c * c * h / 12.56 := by positivity
  have hct : composedTrees tid ⟨c, h, [], hist⟩ = [⟨tid, c, h, ""⟩] := by
    simp [composedTrees, currentVolume, treeVolume, hc, hh, hv]
  constructor <;> simp [saveQuote, hct]

/-- Witness for C10 at pending inputs `(2, 3)`. -/
theorem saveQuote_pending_tree_witness :
    (saveQuote ⟨0, 10, 0, false, false, 0⟩ 0 "q" "t" "d" ⟨2, 3, [], []⟩).1.map Quote.trees =
      some [⟨"t", 2, 3, ""⟩] ∧
    (saveQuote ⟨0, 10, 0, false, false, 0⟩ 0 "q" "t" "d" ⟨2, 3, [], []⟩).2.history =
      (saveQuote ⟨0, 10, 0, false, false, 0⟩ 0 "q" "t" "d" ⟨2, 3, [], []⟩).1.toList ++ [] :=
  saveQuote_pending_tree ⟨0, 10, 0, false, false, 0⟩ 0 "q" "t" "d" 2 3 []
    (by norm_num) (by norm_num)

/-- A pricing config with no starting fee, price 12.56 per cubic foot and both
toggles off, under which one `(1,1)` tree prices at exactly 1. -/
def plainCfg : PricingConfig :=
  { startingFee := 0, pricePerCubicFoot := 12.56, taxRate := 0,
    showTax := false, showDiscount := false, defaultDiscountPercent := 0 }

/-- A composition with one added tree `(1,1)` and pending inputs `(1,1)`. -/
def pendingState : CalcState :=
  { circumference := 1, height := 1, trees := [⟨"t0", 1, 1, ""⟩], history := [] }

/-- Claim C1 (code bug): saving `pendingState` under `plainCfg` stores a quote
whose `trees` field is only the composed tree `t0`, yet whose stored
`subtotal` is 2 because the pending `(1,1)` input was also billed; the
breakdown recomputed from the stored `trees` gives subtotal 1, so the stored
amounts do not equal the breakdown of the quote's own trees. -/
theorem saveQuote_snapshot_mismatch :
    (saveQuote plainCfg 0 "q1" "t1" "d" pendingState).1.map Quote.trees =
      some [⟨"t0", 1, 1, ""⟩] ∧
    (saveQuote plainCfg 0 "q1" "t1" "d" pendingState).1.map Quote.subtotal = some 2 ∧
    (computeBreakdown [⟨"t0", 1, 1, ""⟩] plainCfg 0).subtotal = 1 ∧
    (2 : ℚ) ≠ 1 := by
  refine ⟨?_, ?_, ?_, by norm_num⟩
  · norm_num [saveQuote, pendingState, composedTrees, currentVolume, treeVolume,
      liveVolume, itemVolume, plainCfg]
  · norm_num [saveQuote, pendingState, composedTrees, currentVolume, treeVolume,
      liveVolume, itemVolume, plainCfg]
  · norm_num [computeBreakdown, plainCfg, itemVolume]

/-- Counterexample to claim C7: a persisted value that parses but has the
wrong type (a JSON string in the numeric `startingFee` slot) is NOT replaced
by the documented default 0 — the load path returns it as-is. -/
theorem loadConfig_wrong_type_not_default :
    (loadConfig { emptyStore with startingFee := .val (.str "oops") }).startingFee ≠
      JVal.num 0 := by
  intro hcontra
  simp [loadConfig, emptyStore, loadSlot] at hcontra

/-- Claim C7 as amended: an absent or corrupt/unparsable slot yields the
documented default (loading never fails), a parsable slot yields the stored
value unchanged even when mistyped, and loading from an empty or fully
corrupt store yields exactly the documented default configuration. -/
theorem loadConfig_defaults :
    (∀ d : JVal, loadSlot .absent d = d ∧ loadSlot .corrupt d = d) ∧
    (∀ v d : JVal, loadSlot (.val v) d = v) ∧
    loadConfig emptyStore = defaultRawConfig ∧
    loadConfig corruptStore = defaultRawConfig :=
  ⟨fun _ => ⟨rfl, rfl⟩, fun _ _ => rfl, rfl, rfl⟩

/-- A config whose only nonzero parameter is a starting fee of 1. -/
def feeCfg : PricingConfig :=
  { startingFee := 1, pricePerCubicFoot := 10, taxRate := 0,
    showTax := false, showDiscount := false, defaultDiscountPercent := 0 }

/-- Counterexample to claim C8: with a nonzero starting fee the breakdown is
not additive — concatenating two empty lists yields subtotal 1, while the
field-by-field sum of the two breakdowns yields 2. -/
theorem breakdown_not_additive :
    (computeBreakdown (([] : List TreeItem) ++ []) feeCfg 0).subtotal ≠
      (computeBreakdown ([] : List TreeItem) feeCfg 0).subtotal +
        (computeBreakdown ([] : List TreeItem) feeCfg 0).subtotal := by
  norm_num [computeBreakdown, feeCfg]

/-- Claim C8 as amended: for every config whose `startingFee` is 0, the
breakdown over a concatenation is the field-by-field sum of the breakdowns
(the starting fee is the only non-linear term, counted once per quote). -/
theorem breakdown_additive (A B : List TreeItem) (cfg : PricingConfig) (d : ℚ)
    (hfee : cfg.startingFee = 0) :
    (computeBreakdown (A ++ B) cfg d).subtotal =
        (computeBreakdown A cfg d).subtotal + (computeBreakdown B cfg d).subtotal ∧
    (computeBreakdown (A ++ B) cfg d).discountAmount =
        (computeBreakdown A cfg d).discountAmount +
          (computeBreakdown B cfg d).discountAmount ∧
    (computeBreakdown (A ++ B) cfg d).taxableAmount =
        (computeBreakdown A cfg d).taxableAmount +
          (computeBreakdown B cfg d).taxableAmount ∧
    (computeBreakdown (A ++ B) cfg d).taxAmount =
        (computeBreakdown A cfg d).taxAmount + (computeBreakdown B cfg d).taxAmount ∧
    (computeBreakdown (A ++ B) cfg d).total =
        (computeBreakdown A cfg d).total + (computeBreakdown B cfg d).total := by
  cases hsd : cfg.showDiscount <;> cases hst : cfg.showTax <;>
    refine ⟨?_, ?_, ?_, ?_, ?_⟩ <;>
    simp [computeBreakdown, foldl_add_eq, hfee, hsd, hst] <;>
    ring

/-- Witness for C8: two singleton lists under a zero-fee config with discount
and tax on. -/
theorem breakdown_additive_witness :
    (computeBreakdown ([⟨"a", 2, 3, ""⟩] ++ [⟨"b", 1, 4, ""⟩])
        ⟨0, 10, 7, true, true, 0⟩ 50).total =
      (computeBreakdown [⟨"a", 2, 3, ""⟩] ⟨0, 10, 7, true, true, 0⟩ 50).total +
        (computeBreakdown [⟨"b", 1, 4, ""⟩] ⟨0, 10, 7, true, true, 0⟩ 50).total :=
  (breakdown_additive [⟨"a", 2, 3, ""⟩] [⟨"b", 1, 4, ""⟩]
    ⟨0, 10, 7, true, true, 0⟩ 50 rfl).2.2.2.2

/-- The two trees of the §8 combined scenario: `(10, 6)` and `(5, 8)`. -/
def scenarioTrees : List TreeItem :=
  [⟨"t1", 10, 6, ""⟩, ⟨"t2", 5, 8, ""⟩]

/-- The §8 combined-scenario config: `startingFee=20, pricePerCubicFoot=8,
taxRate=5, showTax=true, showDiscount=true`. -/
def scenarioCfg : PricingConfig :=
  { startingFee := 20, pricePerCubicFoot := 8, taxRate := 5,
    showTax := true, showDiscount := true, defaultDiscountPercent := 0 }

/-- The engine's exact output on the §8 combined scenario with effective
discount percent 10. -/
def scenarioBreakdown : Breakdown :=
  computeBreakdown scenarioTrees scenarioCfg 10

/-- Counterexample to claim C9: on the combined scenario the engine's exact
`taxableAmount` (476.59872...) and `total` (500.42866...) round to 476.60 and
500.43 at two decimals, not to the claimed 476.59 and 500.42. -/
theorem scenario_claim_false :
    round2 scenarioBreakdown.taxableAmount ≠ 476.59 ∧
    round2 scenarioBreakdown.total ≠ 500.42 := by
  constructor <;>
    norm_num [round2, scenarioBreakdown, scenarioTrees, scenarioCfg,
      computeBreakdown, itemVolume]

/-- Claim C9 as amended: on the combined scenario the engine output matches,
to 2 decimals: subtotal 529.55, discountAmount 52.96, taxableAmount 476.60,
taxAmount 23.83, total 500.43. -/
theorem scenario_rounded :
    round2 scenarioBreakdown.subtotal = 529.55 ∧
    round2 scenarioBreakdown.discountAmount = 52.96 ∧
    round2 scenarioBreakdown.taxableAmount = 476.60 ∧
    round2 scenarioBreakdown.taxAmount = 23.83 ∧
    round2 scenarioBreakdown.total = 500.43 := by
  refine ⟨?_, ?_, ?_, ?_, ?_⟩ <;>
    norm_num [round2, scenarioBreakdown, scenarioTrees, scenarioCfg,
      computeBreakdown, itemVolume]

end TCC
